import Mathlib

/-!
Shallow embedding of the core of `src/app.py` (GitHub Repository Analyzer):
the Scoring Engine (`calculate_repo_score`), the Candidate Evaluator
(`evaluate_candidate`) and the LLM-response parsing step of
`analyze_repo_and_jd_match`.

Modelling conventions:
* Python numbers are modelled by `ℚ` (exact arithmetic); Python's `round`
  (banker's rounding, round half to even) is `pyRound`.
* Python `dict`s produced by `json.loads` are modelled by the `Json`
  inductive plus the record view `AnalysisData`, whose fields are `Option`s:
  `none` models a missing key (so that `analysis_data['languages']` raising
  `KeyError` is modelled by the scoring function returning `none`).
* Fallible Python code (raising exceptions) is modelled with `Option`:
  `none` = an exception is raised.
-/

/-- JSON values, as produced by Python's `json.loads`.  An object is the
list of its key/value pairs in textual order (later duplicates win, as in
Python's dict construction, see `dict_get`). -/
inductive Json where
  | null : Json
  | bool (b : Bool) : Json
  | num (q : ℚ) : Json
  | str (s : String) : Json
  | arr (elems : List Json) : Json
  | obj (members : List (String × Json)) : Json

/-- Banker's rounding on exact rationals: Python 3's built-in `round`
applied to a float rounds to the nearest integer, ties to even. -/
def pyRound (q : ℚ) : ℤ :=
  if q - ⌊q⌋ < 1 / 2 then ⌊q⌋
  else if 1 / 2 < q - ⌊q⌋ then ⌊q⌋ + 1
  else if ⌊q⌋ % 2 = 0 then ⌊q⌋ else ⌊q⌋ + 1

/-- Whitespace characters stripped by Python's `str.strip()` (ASCII part:
space, tab, newline, carriage return, vertical tab, form feed). -/
def isPySpace (c : Char) : Bool :=
  c = ' ' || c = '\t' || c = '\n' || c = '\r' || c = Char.ofNat 11 || c = Char.ofNat 12

/-- `str.strip()` on a character list. -/
def pyStripChars (l : List Char) : List Char :=
  ((l.dropWhile isPySpace).reverse.dropWhile isPySpace).reverse

/-- Python's `str.strip()` (whitespace on both ends). -/
def pyStrip (s : String) : String := String.mk (pyStripChars s.data)

/-- Index of the first occurrence of `c`, or `-1` when absent
(the return convention of Python's `str.find`). -/
def findAux (c : Char) : List Char → ℤ
  | [] => -1
  | x :: xs =>
    if x = c then 0
    else if findAux c xs = -1 then -1 else findAux c xs + 1

/-- Index of the last occurrence of `c`, or `-1` when absent
(the return convention of Python's `str.rfind`). -/
def rfindAux (c : Char) : List Char → ℤ
  | [] => -1
  | x :: xs =>
    if rfindAux c xs = -1 then (if x = c then 0 else -1)
    else rfindAux c xs + 1

/-- Python's `response.find(c)`. -/
def pyFind (s : String) (c : Char) : ℤ := findAux c s.data

/-- Python's `response.rfind(c)`. -/
def pyRFind (s : String) (c : Char) : ℤ := rfindAux c s.data

/-- Resolution of one slice endpoint of `s[a:b]` under Python semantics:
negative indices count from the end, and endpoints are clamped to
`[0, len]`. -/
def pySliceIdx (n : ℕ) (i : ℤ) : ℕ :=
  if i < 0 then ((n : ℤ) + i).toNat else min i.toNat n

/-- Python's string slice `s[a:b]` (step 1). -/
def pySlice (s : String) (a b : ℤ) : String :=
  String.mk
    ((s.data.drop (pySliceIdx s.data.length a)).take
      (pySliceIdx s.data.length b - pySliceIdx s.data.length a))

/-- JSON whitespace (RFC 8259: space, tab, line feed, carriage return). -/
def isJsonWs (c : Char) : Bool :=
  c = ' ' || c = '\t' || c = '\n' || c = '\r'

/-- Drop leading JSON whitespace. -/
def skipWs : List Char → List Char
  | [] => []
  | c :: cs => if isJsonWs c then skipWs cs else c :: cs

/-- Value of a hexadecimal digit. -/
def hexVal (c : Char) : Option ℕ :=
  if '0' ≤ c ∧ c ≤ '9' then some (c.toNat - 48)
  else if 'a' ≤ c ∧ c ≤ 'f' then some (c.toNat - 87)
  else if 'A' ≤ c ∧ c ≤ 'F' then some (c.toNat - 55)
  else none

/-- Longest leading run of decimal digits, as digit values, plus the rest. -/
def takeDigits : List Char → (List ℕ × List Char)
  | [] => ([], [])
  | c :: cs =>
    if c.isDigit then
      ((c.toNat - 48) :: (takeDigits cs).1, (takeDigits cs).2)
    else ([], c :: cs)

/-- Natural number denoted by a list of digit values (most significant first). -/
def natOfDigits (ds : List ℕ) : ℕ := ds.foldl (fun a d => a * 10 + d) 0

/-- Body of a JSON string after the opening quote: returns the decoded
characters and the input after the closing quote.  Escapes `\" \\ \/ \b
\f \n \r \t \uXXXX` are decoded (`\uXXXX` via `Char.ofNat`, surrogate
pairs not recombined — no claim depends on them); raw control characters
are rejected, as by Python's strict `json.loads`. -/
def parseJStr : ℕ → List Char → Option (List Char × List Char)
  | 0, _ => none
  | _ + 1, [] => none
  | fuel + 1, c :: cs =>
    if c = '"' then some ([], cs)
    else if c = '\\' then
      match cs with
      | [] => none
      | e :: cs2 =>
        let esc : Option (Char × List Char) :=
          if e = '"' then some ('"', cs2)
          else if e = '\\' then some ('\\', cs2)
          else if e = '/' then some ('/', cs2)
          else if e = 'b' then some (Char.ofNat 8, cs2)
          else if e = 'f' then some (Char.ofNat 12, cs2)
          else if e = 'n' then some ('\n', cs2)
          else if e = 'r' then some ('\r', cs2)
          else if e = 't' then some ('\t', cs2)
          else if e = 'u' then
            match cs2 with
            | h1 :: h2 :: h3 :: h4 :: rest =>
              match hexVal h1, hexVal h2, hexVal h3, hexVal h4 with
              | some a, some b, some c2, some d2 =>
                some (Char.ofNat (((a * 16 + b) * 16 + c2) * 16 + d2), rest)
              | _, _, _, _ => none
            | _ => none
          else none
        match esc with
        | some (ch, rest) => (parseJStr fuel rest).map (fun p => (ch :: p.1, p.2))
        | none => none
    else if c.toNat < 32 then none
    else (parseJStr fuel cs).map (fun p => (c :: p.1, p.2))

/-- Optional fractional part `.digits` of a JSON number; when the input
does not start with `'.'` it contributes `0`. -/
def parseFracPart : List Char → Option (ℚ × List Char)
  | '.' :: rest =>
    if (takeDigits rest).1 = [] then none
    else some (((natOfDigits (takeDigits rest).1 : ℚ) / (10 : ℚ) ^ (takeDigits rest).1.length,
      (takeDigits rest).2))
  | l => some (0, l)

/-- Optional exponent part `e|E [+|-] digits`; when absent it contributes `0`. -/
def parseExpPart : List Char → Option (ℤ × List Char)
  | [] => some (0, [])
  | c :: rest =>
    if c = 'e' ∨ c = 'E' then
      let signed : ℤ × List Char :=
        match rest with
        | '+' :: r => (1, r)
        | '-' :: r => (-1, r)
        | r => (1, r)
      if (takeDigits signed.2).1 = [] then none
      else some (signed.1 * (natOfDigits (takeDigits signed.2).1 : ℤ), (takeDigits signed.2).2)
    else some (0, c :: rest)

/-- JSON number: `-? int frac? exp?` with the RFC 8259 leading-zero rule;
the exact rational value is returned. -/
def parseJNum (l : List Char) : Option (ℚ × List Char) :=
  let signed : ℚ × List Char :=
    match l with
    | '-' :: rest => (-1, rest)
    | _ => (1, l)
  let ip := takeDigits signed.2
  if ip.1 = [] then none
  else if 1 < ip.1.length ∧ ip.1.headI = 0 then none
  else
    match parseFracPart ip.2 with
    | none => none
    | some (fr, l2) =>
      match parseExpPart l2 with
      | none => none
      | some (ex, l3) =>
        some (signed.1 * ((natOfDigits ip.1 : ℚ) + fr) * (10 : ℚ) ^ ex, l3)

mutual

/-- Recursive-descent JSON value parser (models Python's `json.loads`
grammar).  `fuel` bounds the recursion depth; `json_loads` supplies fuel
larger than any derivation the input can need. -/
def parseJVal : ℕ → List Char → Option (Json × List Char)
  | 0, _ => none
  | fuel + 1, l =>
    match skipWs l with
    | [] => none
    | c :: cs =>
      if c = '"' then
        (parseJStr (cs.length + 1) cs).map (fun p => (Json.str (String.mk p.1), p.2))
      else if c = '{' then
        match skipWs cs with
        | '}' :: rest => some (Json.obj [], rest)
        | l2 => (parseJObjItems fuel l2).map (fun p => (Json.obj p.1, p.2))
      else if c = '[' then
        match skipWs cs with
        | ']' :: rest => some (Json.arr [], rest)
        | l2 => (parseJArrItems fuel l2).map (fun p => (Json.arr p.1, p.2))
      else if c = 't' then
        match cs with
        | 'r' :: 'u' :: 'e' :: rest => some (Json.bool true, rest)
        | _ => none
      else if c = 'f' then
        match cs with
        | 'a' :: 'l' :: 's' :: 'e' :: rest => some (Json.bool false, rest)
        | _ => none
      else if c = 'n' then
        match cs with
        | 'u' :: 'l' :: 'l' :: rest => some (Json.null, rest)
        | _ => none
      else if c = '-' ∨ c.isDigit then
        (parseJNum (c :: cs)).map (fun p => (Json.num p.1, p.2))
      else none

/-- One or more comma-separated array elements followed by `]`. -/
def parseJArrItems : ℕ → List Char → Option (List Json × List Char)
  | 0, _ => none
  | fuel + 1, l =>
    match parseJVal fuel l with
    | none => none
    | some (v, l2) =>
      match skipWs l2 with
      | ',' :: l3 => (parseJArrItems fuel l3).map (fun p => (v :: p.1, p.2))
      | ']' :: l3 => some ([v], l3)
      | _ => none

/-- One or more comma-separated `"key": value` members followed by `}`. -/
def parseJObjItems : ℕ → List Char → Option (List (String × Json) × List Char)
  | 0, _ => none
  | fuel + 1, l =>
    match skipWs l with
    | '"' :: cs =>
      match parseJStr (cs.length + 1) cs with
      | none => none
      | some (key, l2) =>
        match skipWs l2 with
        | ':' :: l3 =>
          match parseJVal fuel l3 with
          | none => none
          | some (v, l4) =>
            match skipWs l4 with
            | ',' :: l5 => (parseJObjItems fuel l5).map (fun p => ((String.mk key, v) :: p.1, p.2))
            | '}' :: l5 => some ([(String.mk key, v)], l5)
            | _ => none
        | _ => none
    | _ => none

end

/-- Python's `json.loads`: parse one JSON value and require only
whitespace after it.  The fuel `2 * length + 2` exceeds the recursion
depth any parse of the input can reach (each descent consumes at least
one character of a bracket, comma, colon or value). -/
def json_loads (s : String) : Option Json :=
  match parseJVal (2 * s.length + 2) s.data with
  | some (v, rest) => if skipWs rest = [] then some v else none
  | none => none

/-- The record view of the analysis dict consumed by `calculate_repo_score`.
Each field is `none` when the corresponding key is missing from the dict
(or is present with a type on which the scoring code's operation —
`len(...)` for the three list fields, `.lower()` for the two tier fields —
would itself raise; both situations make the scoring function raise, which
`Option` models uniformly). -/
structure AnalysisData where
  languages : Option (List Json)
  tech_stack : Option (List Json)
  algorithms : Option (List Json)
  complexity : Option String
  commit_activity : Option String
  jd_match_score : Option Json
  jd_match_reasons : Option (List Json)

/-- Lookup in a Python dict built from the member list of a JSON object:
a later binding of the same key overwrites an earlier one. -/
def dict_get (kvs : List (String × Json)) (k : String) : Option Json :=
  kvs.foldl (fun acc kv => if kv.1 = k then some kv.2 else acc) none

/-- View a list-valued field: present only when the value is a JSON array. -/
def asJsonList : Json → Option (List Json)
  | .arr xs => some xs
  | _ => none

/-- View a string-valued field: present only when the value is a JSON string. -/
def asJsonStr : Json → Option String
  | .str s => some s
  | _ => none

/-- The record view of an arbitrary parsed JSON value.  A non-object value
(on which every subscript `value['key']` raises) is viewed as the record
with every field absent. -/
def toAnalysisData : Json → AnalysisData
  | .obj kvs =>
    { languages := (dict_get kvs "languages").bind asJsonList
      tech_stack := (dict_get kvs "tech_stack").bind asJsonList
      algorithms := (dict_get kvs "algorithms").bind asJsonList
      complexity := (dict_get kvs "complexity").bind asJsonStr
      commit_activity := (dict_get kvs "commit_activity").bind asJsonStr
      jd_match_score := dict_get kvs "jd_match_score"
      jd_match_reasons := (dict_get kvs "jd_match_reasons").bind asJsonList }
  | _ => ⟨none, none, none, none, none, none, none⟩

/-- The default analysis returned by `analyze_repo_and_jd_match` when
parsing the LLM response fails (the `except` branch of `app.py`). -/
def default_analysis : AnalysisData :=
  { languages := some []
    tech_stack := some []
    algorithms := some []
    complexity := some "unknown"
    commit_activity := some "unknown"
    jd_match_score := some (Json.num 0)
    jd_match_reasons := some [] }

/-- Python's `float(x)` on a string that reached it from `json.loads`:
optional surrounding whitespace, optional sign, digits with an optional
single decimal point (digits required on at least one side) and an
optional exponent.  Forms Python maps to non-finite floats (`inf`, `nan`),
or rejects, yield `none`; on `none` the caller raises.  (Underscored
digit groups are not modelled; no claim involves them.) -/
def pyFloatOfString (s : String) : Option ℚ :=
  let l := pyStripChars s.data
  let signed : ℚ × List Char :=
    match l with
    | '+' :: r => (1, r)
    | '-' :: r => (-1, r)
    | r => (1, r)
  let ip := takeDigits signed.2
  match ip.2 with
  | '.' :: r =>
    let fp := takeDigits r
    if ip.1 = [] ∧ fp.1 = [] then none
    else
      match parseExpPart fp.2 with
      | none => none
      | some (ex, l4) =>
        if l4 = [] then
          some (signed.1 * ((natOfDigits ip.1 : ℚ) + (natOfDigits fp.1 : ℚ) / (10 : ℚ) ^ fp.1.length)
            * (10 : ℚ) ^ ex)
        else none
  | l2 =>
    if ip.1 = [] then none
    else
      match parseExpPart l2 with
      | none => none
      | some (ex, l3) =>
        if l3 = [] then some (signed.1 * (natOfDigits ip.1 : ℚ) * (10 : ℚ) ^ ex)
        else none

/-- Python's `float(v)` on a value taken from a parsed JSON document:
numbers are returned, booleans coerce to `1`/`0`, numeric strings are
parsed, everything else raises (`none`). -/
def pyFloat : Json → Option ℚ
  | .num q => some q
  | .bool b => some (if b then 1 else 0)
  | .str s => pyFloatOfString s
  | _ => none

/-- `float(analysis_data.get('jd_match_score', 0))` of `app.py`:
a missing key defaults to `0` before the coercion. -/
def getJd (d : AnalysisData) : Option ℚ :=
  pyFloat (d.jd_match_score.getD (Json.num 0))

/-- Python's `str.lower()` (ASCII case folding, applied per character). -/
def pyLower (s : String) : String := String.mk (s.data.map Char.toLower)

/-- The dict `{"low": 10, "medium": 20, "high": 30, "unknown": 0}` with
`.get(key, 0)` from `calculate_repo_score`. -/
def complexity_scores_get (s : String) : ℕ :=
  if s = "low" then 10
  else if s = "medium" then 20
  else if s = "high" then 30
  else if s = "unknown" then 0
  else 0

/-- The dict `{"inactive": 10, "moderate": 20, "active": 30, "unknown": 0}`
with `.get(key, 0)` from `calculate_repo_score`. -/
def activity_scores_get (s : String) : ℕ :=
  if s = "inactive" then 10
  else if s = "moderate" then 20
  else if s = "active" then 30
  else if s = "unknown" then 0
  else 0

/-- The `base_score` accumulated by `calculate_repo_score` once the five
classification fields have been read: language diversity (cap 10),
tech-stack breadth (cap 15), algorithms (cap 15), the complexity tier and
the commit-activity tier, both looked up after `.lower()`. -/
def base_score (langs ts algs : List Json) (cx ca : String) : ℕ :=
  min (langs.length * 2) 10 + min (ts.length * 3) 15 + min (algs.length * 3) 15
    + complexity_scores_get (pyLower cx) + activity_scores_get (pyLower ca)

/-- `calculate_repo_score` of `app.py`.  The five direct subscripts
(`analysis_data['languages']`, …) raise `KeyError` on a missing key —
modelled by the `Option.bind` chain — and the jd coercion may raise; on
success the weighted blend is rounded by Python's `round`. -/
def calculate_repo_score (d : AnalysisData) : Option ℤ :=
  d.languages.bind fun langs =>
  d.tech_stack.bind fun ts =>
  d.algorithms.bind fun algs =>
  d.complexity.bind fun cx =>
  d.commit_activity.bind fun ca =>
  (getJd d).map fun jd =>
    pyRound ((base_score langs ts algs cx ca : ℚ) * 0.6 + jd * 0.4)

/-- `evaluate_candidate` of `app.py`.  (`avg_score` is inlined; the
source binds it to a local variable first.) -/
def evaluate_candidate (total_score : ℚ) (num_repos : ℕ) : String :=
  if num_repos = 0 then "Unable to evaluate - no repositories found"
  else if total_score / (num_repos : ℚ) ≥ 75 then "Highly Suitable"
  else if total_score / (num_repos : ℚ) ≥ 50 then "Moderately Suitable"
  else if total_score / (num_repos : ℚ) ≥ 25 then "Potentially Suitable"
  else "Not Suitable"

/-- The string handed to `json.loads` by `analyze_repo_and_jd_match`:
`response[response.find("\x7b") : response.rfind("\x7d") + 1].strip()`. -/
def extract_response (r : String) : String :=
  pyStrip (pySlice r (pyFind r '{') (pyRFind r '}' + 1))

/-- The response-processing step of `analyze_repo_and_jd_match` of
`app.py`: locate the JSON payload between the first `\x7b` and the last
`\x7d`, parse it, and on any failure substitute `default_analysis`;
a successfully parsed value is returned unchanged (viewed as a record). -/
def analyze_repo_and_jd_match (response : String) : AnalysisData :=
  match json_loads (extract_response response) with
  | some j => toAnalysisData j
  | none => default_analysis

/-! Concrete analysis records used to instantiate the theorems below. -/

/-- The concrete scenario of the specification: two languages, one
tech-stack entry, no algorithms, medium complexity, active commits,
job match 80. -/
def exScenario : AnalysisData :=
  { languages := some [Json.str "Python", Json.str "JS"]
    tech_stack := some [Json.str "Flask"]
    algorithms := some []
    complexity := some "medium"
    commit_activity := some "active"
    jd_match_score := some (Json.num 80)
    jd_match_reasons := some [] }

/-- A list of five JSON values (enough to reach every count cap). -/
def fiveItems : List Json :=
  [Json.null, Json.null, Json.null, Json.null, Json.null]

/-- A maximal analysis whose `jd_match_score` is far above 100. -/
def exOverJd : AnalysisData :=
  { languages := some fiveItems
    tech_stack := some fiveItems
    algorithms := some fiveItems
    complexity := some "high"
    commit_activity := some "active"
    jd_match_score := some (Json.num 1000)
    jd_match_reasons := some [] }

/-- A maximal analysis with an in-range `jd_match_score` of 50. -/
def exMidJd : AnalysisData :=
  { exOverJd with jd_match_score := some (Json.num 50) }

/-- A maximal analysis with `jd_match_score` 100 (every factor at its cap). -/
def exFullJd : AnalysisData :=
  { exOverJd with jd_match_score := some (Json.num 100) }

/-- The scenario record with its `jd_match_score` key missing. -/
def exNoJd : AnalysisData :=
  { exScenario with jd_match_score := none }

/-- The scenario record with a `jd_match_score` no `float(...)` accepts. -/
def exBadJd : AnalysisData :=
  { exScenario with jd_match_score := some (Json.str "N/A") }

/-- The scenario record with `jd_match_score` the numeric string "72.5". -/
def exStrJd : AnalysisData :=
  { exScenario with jd_match_score := some (Json.str "72.5") }

/-- `exStrJd` with the string replaced by the number it denotes. -/
def exNumJd : AnalysisData :=
  { exStrJd with jd_match_score := some (Json.num (145 / 2)) }

/-- The scenario record with one more tech-stack entry appended. -/
def exScenarioPlus : AnalysisData :=
  { exScenario with tech_stack := some ([Json.str "Flask"] ++ [Json.str "Redis"]) }

/-! Helper lemmas. -/

/-- `pyRound` returns either the floor or the floor plus one. -/
theorem pyRound_eq_floor_or (q : ℚ) : pyRound q = ⌊q⌋ ∨ pyRound q = ⌊q⌋ + 1 := by
  unfold pyRound
  split_ifs <;> simp

/-- Any integer lower bound on the argument bounds `pyRound` from below. -/
theorem le_pyRound_of_le (m : ℤ) (q : ℚ) (h : (m : ℚ) ≤ q) : m ≤ pyRound q := by
  have hf : m ≤ ⌊q⌋ := Int.le_floor.mpr h
  rcases pyRound_eq_floor_or q with h2 | h2 <;> omega

/-- Any integer upper bound on the argument bounds `pyRound` from above. -/
theorem pyRound_le_of_le (m : ℤ) (q : ℚ) (h : q ≤ (m : ℚ)) : pyRound q ≤ m := by
  have hfq : (⌊q⌋ : ℚ) ≤ q := Int.floor_le q
  have hfm : ⌊q⌋ ≤ m := by
    have := Int.floor_le_floor h
    simpa using this
  unfold pyRound
  split_ifs with h1 h2 h3
  · exact hfm
  · have : (⌊q⌋ : ℚ) + 1 / 2 < (m : ℚ) := by linarith
    have hlt : ⌊q⌋ < m := by exact_mod_cast (by linarith : (⌊q⌋ : ℚ) < (m : ℚ))
    omega
  · exact hfm
  · have heq : q - ⌊q⌋ = 1 / 2 := le_antisymm (not_lt.mp h2) (not_lt.mp h1)
    have hlt : ⌊q⌋ < m := by exact_mod_cast (by linarith : (⌊q⌋ : ℚ) < (m : ℚ))
    omega

/-- Banker's rounding is monotone. -/
theorem pyRound_mono {x y : ℚ} (h : x ≤ y) : pyRound x ≤ pyRound y := by
  have hff : ⌊x⌋ ≤ ⌊y⌋ := Int.floor_le_floor h
  rcases lt_or_eq_of_le hff with hf | hf
  · have h1 : pyRound x ≤ ⌊x⌋ + 1 := by
      rcases pyRound_eq_floor_or x with h2 | h2 <;> omega
    have h2 : ⌊y⌋ ≤ pyRound y := by
      rcases pyRound_eq_floor_or y with h3 | h3 <;> omega
    omega
  · have hfq : ((⌊x⌋ : ℤ) : ℚ) = ((⌊y⌋ : ℤ) : ℚ) := by exact_mod_cast hf
    unfold pyRound
    split_ifs <;> first | omega | (exfalso; linarith)

/-- `calculate_repo_score` on a record with all six classification fields
readable: the weighted blend of the accumulated base score and the
coerced jd match score, rounded. -/
theorem calculate_repo_score_eq (d : AnalysisData) (langs ts algs : List Json)
    (cx ca : String) (q : ℚ)
    (h1 : d.languages = some langs) (h2 : d.tech_stack = some ts)
    (h3 : d.algorithms = some algs) (h4 : d.complexity = some cx)
    (h5 : d.commit_activity = some ca) (h6 : getJd d = some q) :
    calculate_repo_score d =
      some (pyRound ((base_score langs ts algs cx ca : ℚ) * 0.6 + q * 0.4)) := by
  unfold calculate_repo_score
  rw [h1, h2, h3, h4, h5, h6]
  rfl

/-- The Scoring Engine raises (`none`) when reading the five directly
subscripted fields fails because one of them is missing. -/
theorem score_none_of_missing (d : AnalysisData)
    (h : d.languages = none ∨ d.tech_stack = none ∨ d.algorithms = none ∨
      d.complexity = none ∨ d.commit_activity = none) :
    calculate_repo_score d = none := by
  unfold calculate_repo_score
  rcases h with h | h | h | h | h
  · rw [h]; rfl
  · rw [h]; cases d.languages <;> rfl
  · rw [h]; cases d.languages <;> cases d.tech_stack <;> rfl
  · rw [h]; cases d.languages <;> cases d.tech_stack <;> cases d.algorithms <;> rfl
  · rw [h]
    cases d.languages <;> cases d.tech_stack <;> cases d.algorithms <;> cases d.complexity <;> rfl

/-- The Scoring Engine raises (`none`) when the jd coercion raises. -/
theorem score_none_of_jd_none (d : AnalysisData) (h6 : getJd d = none) :
    calculate_repo_score d = none := by
  unfold calculate_repo_score
  rw [h6]
  cases d.languages <;> cases d.tech_stack <;> cases d.algorithms <;>
    cases d.complexity <;> cases d.commit_activity <;> rfl

/-- The complexity table never awards more than 30 points. -/
theorem complexity_scores_get_le (s : String) : complexity_scores_get s ≤ 30 := by
  unfold complexity_scores_get
  split_ifs <;> omega

/-- The activity table never awards more than 30 points. -/
theorem activity_scores_get_le (s : String) : activity_scores_get s ≤ 30 := by
  unfold activity_scores_get
  split_ifs <;> omega

/-- The accumulated base score is at most `10+15+15+30+30 = 100`. -/
theorem base_score_le_100 (langs ts algs : List Json) (cx ca : String) :
    base_score langs ts algs cx ca ≤ 100 := by
  unfold base_score
  have hc := complexity_scores_get_le (pyLower cx)
  have ha := activity_scores_get_le (pyLower ca)
  omega

/-- With all fields readable and the jd value in `[0, 100]`, the final
score exists and lies in `[0, 100]`. -/
theorem score_range (d : AnalysisData) (langs ts algs : List Json)
    (cx ca : String) (q : ℚ)
    (h1 : d.languages = some langs) (h2 : d.tech_stack = some ts)
    (h3 : d.algorithms = some algs) (h4 : d.complexity = some cx)
    (h5 : d.commit_activity = some ca) (h6 : getJd d = some q)
    (hq0 : 0 ≤ q) (hq1 : q ≤ 100) :
    ∃ s : ℤ, calculate_repo_score d = some s ∧ 0 ≤ s ∧ s ≤ 100 := by
  refine ⟨pyRound ((base_score langs ts algs cx ca : ℚ) * 0.6 + q * 0.4),
    calculate_repo_score_eq d langs ts algs cx ca q h1 h2 h3 h4 h5 h6, ?_, ?_⟩
  · apply le_pyRound_of_le
    have hb : (0 : ℚ) ≤ (base_score langs ts algs cx ca : ℚ) := by positivity
    have hm1 : (0 : ℚ) ≤ (base_score langs ts algs cx ca : ℚ) * 0.6 :=
      mul_nonneg hb (by norm_num)
    have hm2 : (0 : ℚ) ≤ q * 0.4 := mul_nonneg hq0 (by norm_num)
    push_cast
    linarith
  · apply pyRound_le_of_le
    have hb : (base_score langs ts algs cx ca : ℚ) ≤ 100 := by
      exact_mod_cast base_score_le_100 langs ts algs cx ca
    have hm1 : (base_score langs ts algs cx ca : ℚ) * 0.6 ≤ 100 * 0.6 :=
      mul_le_mul_of_nonneg_right hb (by norm_num)
    have hm2 : q * 0.4 ≤ 100 * 0.4 := mul_le_mul_of_nonneg_right hq1 (by norm_num)
    push_cast
    linarith

/-- Appending one tech-stack entry below the cap adds exactly 3 base points. -/
theorem base_score_append_tech (langs ts algs : List Json) (x : Json)
    (cx ca : String) (h : ts.length < 5) :
    base_score langs (ts ++ [x]) algs cx ca = base_score langs ts algs cx ca + 3 := by
  unfold base_score
  rw [List.length_append]
  simp only [List.length_singleton]
  omega

/-- `findAux` returns the index of the first occurrence. -/
theorem findAux_spec (c : Char) (l : List Char) (i : ℕ)
    (hi : l.get? i = some c) (hfirst : ∀ k < i, l.get? k ≠ some c) :
    findAux c l = (i : ℤ) := by
  induction l generalizing i with
  | nil => simp at hi
  | cons x xs ih =>
    cases i with
    | zero =>
      have hx : x = c := by simpa using hi
      simp [findAux, hx]
    | succ n =>
      have hx : ¬(x = c) := by
        have h0 := hfirst 0 (Nat.succ_pos n)
        simpa using h0
      have hr : findAux c xs = (n : ℤ) := by
        apply ih
        · simpa using hi
        · intro k hk
          have := hfirst (k + 1) (Nat.succ_lt_succ hk)
          simpa using this
      show (if x = c then 0
        else if findAux c xs = -1 then -1 else findAux c xs + 1) = ((n + 1 : ℕ) : ℤ)
      have hne : ¬(findAux c xs = -1) := by rw [hr]; omega
      rw [if_neg hx, if_neg hne, hr]
      push_cast
      ring

/-- `rfindAux` returns `-1` when the character does not occur. -/
theorem rfindAux_none (c : Char) (l : List Char)
    (h : ∀ k < l.length, l.get? k ≠ some c) : rfindAux c l = -1 := by
  induction l with
  | nil => rfl
  | cons x xs ih =>
    have hx : ¬(x = c) := by
      have := h 0 (by simp)
      simpa using this
    have hr : rfindAux c xs = -1 := by
      apply ih
      intro k hk
      have := h (k + 1) (by simpa using Nat.succ_lt_succ hk)
      simpa using this
    show (if rfindAux c xs = -1 then (if x = c then 0 else -1)
      else rfindAux c xs + 1) = -1
    rw [hr, if_pos rfl, if_neg hx]

/-- `rfindAux` returns the index of the last occurrence. -/
theorem rfindAux_spec (c : Char) (l : List Char) (j : ℕ)
    (hj : l.get? j = some c)
    (hlast : ∀ k < l.length, j < k → l.get? k ≠ some c) :
    rfindAux c l = (j : ℤ) := by
  induction l generalizing j with
  | nil => simp at hj
  | cons x xs ih =>
    cases j with
    | zero =>
      have hx : x = c := by simpa using hj
      have hr : rfindAux c xs = -1 := by
        apply rfindAux_none
        intro k hk
        have := hlast (k + 1) (by simpa using Nat.succ_lt_succ hk) (Nat.succ_pos k)
        simpa using this
      show (if rfindAux c xs = -1 then (if x = c then 0 else -1)
        else rfindAux c xs + 1) = (0 : ℤ)
      rw [hr, if_pos rfl, if_pos hx]
    | succ n =>
      have hr : rfindAux c xs = (n : ℤ) := by
        apply ih
        · simpa using hj
        · intro k hk hnk
          have := hlast (k + 1) (by simpa using Nat.succ_lt_succ hk) (Nat.succ_lt_succ hnk)
          simpa using this
      show (if rfindAux c xs = -1 then (if x = c then 0 else -1)
        else rfindAux c xs + 1) = ((n + 1 : ℕ) : ℤ)
      have hne : ¬(rfindAux c xs = -1) := by rw [hr]; omega
      rw [if_neg hne, hr]
      push_cast
      ring

/-- A slice with in-range non-negative endpoints is the usual take/drop. -/
theorem pySlice_nat (s : String) (i j : ℕ)
    (hi : i ≤ s.data.length) (hj : j ≤ s.data.length) :
    pySlice s (i : ℤ) (j : ℤ) = String.mk ((s.data.drop i).take (j - i)) := by
  unfold pySlice pySliceIdx
  have h1 : ¬((i : ℤ) < 0) := by omega
  have h2 : ¬((j : ℤ) < 0) := by omega
  rw [if_neg h1, if_neg h2]
  simp only [Int.toNat_natCast]
  rw [min_eq_left hi, min_eq_left hj]

/-- A `get?` hit is inside the list. -/
theorem lt_length_of_get?_eq_some {l : List Char} {i : ℕ} {c : Char}
    (h : l.get? i = some c) : i < l.length := by
  by_contra hcon
  push_neg at hcon
  rw [List.get?_eq_none.mpr hcon] at h
  cases h

/-! The claims. -/

/-- C1: with all six classification fields present, the score is
`round(base_score * 0.6 + jd_match_score * 0.4)` where the base score sums
the capped language, tech-stack and algorithm counts and the two
case-insensitive tier lookups (low 10 / medium 20 / high 30, and
inactive 10 / moderate 20 / active 30, anything else 0). -/
theorem C1_score_formula (d : AnalysisData) (langs ts algs : List Json)
    (cx ca : String) (q : ℚ)
    (h1 : d.languages = some langs) (h2 : d.tech_stack = some ts)
    (h3 : d.algorithms = some algs) (h4 : d.complexity = some cx)
    (h5 : d.commit_activity = some ca) (h6 : getJd d = some q) :
    calculate_repo_score d =
      some (pyRound (((min (2 * langs.length) 10 + min (3 * ts.length) 15
        + min (3 * algs.length) 15
        + (if pyLower cx = "low" then 10 else if pyLower cx = "medium" then 20
          else if pyLower cx = "high" then 30 else 0)
        + (if pyLower ca = "inactive" then 10 else if pyLower ca = "moderate" then 20
          else if pyLower ca = "active" then 30 else 0) : ℕ) : ℚ) * 0.6 + q * 0.4)) := by
  rw [calculate_repo_score_eq d langs ts algs cx ca q h1 h2 h3 h4 h5 h6]
  have hb : base_score langs ts algs cx ca =
      min (2 * langs.length) 10 + min (3 * ts.length) 15 + min (3 * algs.length) 15
        + (if pyLower cx = "low" then 10 else if pyLower cx = "medium" then 20
          else if pyLower cx = "high" then 30 else 0)
        + (if pyLower ca = "inactive" then 10 else if pyLower ca = "moderate" then 20
          else if pyLower ca = "active" then 30 else 0) := by
    unfold base_score complexity_scores_get activity_scores_get
    split_ifs <;> omega
  rw [hb]

/-- C1 witness: the concrete scenario of the specification scores 66. -/
theorem C1_witness : calculate_repo_score exScenario = some 66 := by
  rw [C1_score_formula exScenario [Json.str "Python", Json.str "JS"] [Json.str "Flask"] []
    "medium" "active" 80 rfl rfl rfl rfl rfl rfl]
  norm_num [pyRound, (by decide : pyLower "medium" = "medium"),
    (by decide : pyLower "active" = "active"),
    (by decide : ¬(("medium" : String) = "low")),
    (by decide : ¬(("active" : String) = "inactive")),
    (by decide : ¬(("active" : String) = "moderate"))]

/-- C2: with at least one repository, the tiers are assigned by the
average `total_score / repo_count` with inclusive lower bounds 75, 50, 25. -/
theorem C2_evaluate_tiers (t : ℚ) (n : ℕ) (hn : 0 < n) :
    (75 ≤ t / (n : ℚ) → evaluate_candidate t n = "Highly Suitable") ∧
    (t / (n : ℚ) < 75 → 50 ≤ t / (n : ℚ) → evaluate_candidate t n = "Moderately Suitable") ∧
    (t / (n : ℚ) < 50 → 25 ≤ t / (n : ℚ) → evaluate_candidate t n = "Potentially Suitable") ∧
    (t / (n : ℚ) < 25 → evaluate_candidate t n = "Not Suitable") := by
  have hn0 : ¬(n = 0) := by omega
  unfold evaluate_candidate
  rw [if_neg hn0]
  refine ⟨fun h75 => ?_, fun h75 h50 => ?_, fun h50 h25 => ?_, fun h25 => ?_⟩
  · rw [if_pos h75]
  · rw [if_neg (not_le.mpr h75), if_pos h50]
  · rw [if_neg (not_le.mpr (h50.trans_le (by norm_num))), if_neg (not_le.mpr h50),
      if_pos h25]
  · rw [if_neg (not_le.mpr (h25.trans_le (by norm_num))),
      if_neg (not_le.mpr (h25.trans_le (by norm_num))), if_neg (not_le.mpr h25)]

/-- C2 witness: the boundary runs of the specification. -/
theorem C2_witness :
    evaluate_candidate 375 5 = "Highly Suitable" ∧
    evaluate_candidate 250 5 = "Moderately Suitable" ∧
    evaluate_candidate 125 5 = "Potentially Suitable" ∧
    evaluate_candidate 124 5 = "Not Suitable" :=
  ⟨(C2_evaluate_tiers 375 5 (by norm_num)).1 (by norm_num),
    (C2_evaluate_tiers 250 5 (by norm_num)).2.1 (by norm_num) (by norm_num),
    (C2_evaluate_tiers 125 5 (by norm_num)).2.2.1 (by norm_num) (by norm_num),
    (C2_evaluate_tiers 124 5 (by norm_num)).2.2.2 (by norm_num)⟩

/-- C6: with zero repositories the Evaluator returns a dedicated sentinel,
distinct from each of the four suitability labels, without dividing. -/
theorem C6_zero_repos_sentinel : ∀ t : ℚ,
    evaluate_candidate t 0 = "Unable to evaluate - no repositories found" ∧
    "Unable to evaluate - no repositories found" ≠ "Highly Suitable" ∧
    "Unable to evaluate - no repositories found" ≠ "Moderately Suitable" ∧
    "Unable to evaluate - no repositories found" ≠ "Potentially Suitable" ∧
    "Unable to evaluate - no repositories found" ≠ "Not Suitable" := by
  intro t
  exact ⟨rfl, by decide, by decide, by decide, by decide⟩

/-- C7: with all fields present and the jd value in `[0, 100]`, the base
component never exceeds 100 and the final score lies in `[0, 100]`. -/
theorem C7_bounded (d : AnalysisData) (langs ts algs : List Json)
    (cx ca : String) (q : ℚ)
    (h1 : d.languages = some langs) (h2 : d.tech_stack = some ts)
    (h3 : d.algorithms = some algs) (h4 : d.complexity = some cx)
    (h5 : d.commit_activity = some ca) (h6 : getJd d = some q)
    (hq0 : 0 ≤ q) (hq1 : q ≤ 100) :
    base_score langs ts algs cx ca ≤ 100 ∧
    ∃ s : ℤ, calculate_repo_score d = some s ∧ 0 ≤ s ∧ s ≤ 100 :=
  ⟨base_score_le_100 langs ts algs cx ca,
    score_range d langs ts algs cx ca q h1 h2 h3 h4 h5 h6 hq0 hq1⟩

/-- C7 witness: a maximal analysis with jd 100 stays within bounds. -/
theorem C7_witness :
    base_score fiveItems fiveItems fiveItems "high" "active" ≤ 100 ∧
    ∃ s : ℤ, calculate_repo_score exFullJd = some s ∧ 0 ≤ s ∧ s ≤ 100 :=
  C7_bounded exFullJd fiveItems fiveItems fiveItems "high" "active" 100
    rfl rfl rfl rfl rfl rfl (by norm_num) (by norm_num)

/-- C3 counterexample: a present but non-numeric `jd_match_score` makes
`float(...)` raise, so the Scoring Engine raises instead of treating the
value as 0 — refuting the claim that it never raises on such input. -/
theorem C3_counterexample :
    exBadJd.jd_match_score = some (Json.str "N/A") ∧
    pyFloat (Json.str "N/A") = none ∧
    calculate_repo_score exBadJd = none :=
  ⟨rfl, rfl, score_none_of_jd_none exBadJd rfl⟩

/-- C3 (amended): an absent `jd_match_score` is defaulted to 0 and the
Engine returns normally; a present value that `float(...)` rejects makes
the Engine raise. -/
theorem C3_amended_jd (d : AnalysisData) (langs ts algs : List Json) (cx ca : String)
    (h1 : d.languages = some langs) (h2 : d.tech_stack = some ts)
    (h3 : d.algorithms = some algs) (h4 : d.complexity = some cx)
    (h5 : d.commit_activity = some ca) :
    (d.jd_match_score = none →
      calculate_repo_score d =
        some (pyRound ((base_score langs ts algs cx ca : ℚ) * 0.6 + 0 * 0.4))) ∧
    (∀ v, d.jd_match_score = some v → pyFloat v = none →
      calculate_repo_score d = none) := by
  constructor
  · intro hnone
    have h6 : getJd d = some 0 := by
      unfold getJd
      rw [hnone]
      rfl
    exact calculate_repo_score_eq d langs ts algs cx ca 0 h1 h2 h3 h4 h5 h6
  · intro v hv hfl
    apply score_none_of_jd_none
    unfold getJd
    rw [hv]
    exact hfl

/-- C3 witness: the scenario record without the jd key scores
`round(57 * 0.6) = 34`; with the unparsable string it raises. -/
theorem C3_witness :
    calculate_repo_score exNoJd = some 34 ∧ calculate_repo_score exBadJd = none := by
  constructor
  · rw [(C3_amended_jd exNoJd [Json.str "Python", Json.str "JS"] [Json.str "Flask"] []
      "medium" "active" rfl rfl rfl rfl rfl).1 rfl]
    norm_num [pyRound, (by decide : base_score [Json.str "Python", Json.str "JS"]
      [Json.str "Flask"] [] "medium" "active" = 57)]
  · exact (C3_amended_jd exBadJd [Json.str "Python", Json.str "JS"] [Json.str "Flask"] []
      "medium" "active" rfl rfl rfl rfl rfl).2 (Json.str "N/A") rfl rfl

/-- C4 counterexample: the empty object parses successfully with every
classification field omitted, reaches the Scoring Engine unchanged, and
the Engine raises — refuting the claim that missing fields are replaced
by defaults before scoring. -/
theorem C4_counterexample :
    json_loads (extract_response "\x7b\x7d") = some (Json.obj []) ∧
    analyze_repo_and_jd_match "\x7b\x7d" = toAnalysisData (Json.obj []) ∧
    calculate_repo_score (analyze_repo_and_jd_match "\x7b\x7d") = none :=
  ⟨rfl, rfl, score_none_of_missing _ (Or.inl rfl)⟩

/-- C4 (amended): a successfully parsed record is passed to the Scoring
Engine unchanged — missing fields are not defaulted — and the Engine
raises whenever one of the five directly subscripted fields is missing. -/
theorem C4_amended_passthrough (r : String) (j : Json)
    (h : json_loads (extract_response r) = some j) :
    analyze_repo_and_jd_match r = toAnalysisData j ∧
    ∀ d : AnalysisData,
      (d.languages = none ∨ d.tech_stack = none ∨ d.algorithms = none ∨
        d.complexity = none ∨ d.commit_activity = none) →
      calculate_repo_score d = none := by
  constructor
  · unfold analyze_repo_and_jd_match
    rw [h]
  · exact fun d hd => score_none_of_missing d hd

/-- C4 witness: the empty-object response passes through as the empty
record and the Engine raises on it. -/
theorem C4_witness :
    analyze_repo_and_jd_match "\x7b\x7d" = toAnalysisData (Json.obj []) ∧
    calculate_repo_score (toAnalysisData (Json.obj [])) = none := by
  have h := C4_amended_passthrough "\x7b\x7d" (Json.obj []) rfl
  exact ⟨h.1, h.2 (toAnalysisData (Json.obj [])) (Or.inl rfl)⟩

/-- C5 counterexample: a `jd_match_score` of 1000 drives the final score
to 460, refuting the claim that the result always lies in 0–100. -/
theorem C5_counterexample :
    calculate_repo_score exOverJd = some 460 ∧ ¬((460 : ℤ) ≤ 100) := by
  constructor
  · rw [calculate_repo_score_eq exOverJd fiveItems fiveItems fiveItems "high" "active" 1000
      rfl rfl rfl rfl rfl rfl]
    norm_num [pyRound,
      (by decide : base_score fiveItems fiveItems fiveItems "high" "active" = 100)]
  · decide

/-- C5 (amended): the Scoring Engine returns an integer, and that integer
lies in 0–100 whenever the jd value is within `[0, 100]`; out-of-range jd
values are blended as-is and can push the result outside 0–100. -/
theorem C5_amended_range (d : AnalysisData) (langs ts algs : List Json)
    (cx ca : String) (q : ℚ)
    (h1 : d.languages = some langs) (h2 : d.tech_stack = some ts)
    (h3 : d.algorithms = some algs) (h4 : d.complexity = some cx)
    (h5 : d.commit_activity = some ca) (h6 : getJd d = some q)
    (hq0 : 0 ≤ q) (hq1 : q ≤ 100) :
    ∃ s : ℤ, calculate_repo_score d = some s ∧ 0 ≤ s ∧ s ≤ 100 :=
  score_range d langs ts algs cx ca q h1 h2 h3 h4 h5 h6 hq0 hq1

/-- C5 witness: the maximal analysis with jd 50 stays within 0–100. -/
theorem C5_witness :
    ∃ s : ℤ, calculate_repo_score exMidJd = some s ∧ 0 ≤ s ∧ s ≤ 100 :=
  C5_amended_range exMidJd fiveItems fiveItems fiveItems "high" "active" 50
    rfl rfl rfl rfl rfl rfl (by norm_num) (by norm_num)

/-- C8: appending one tech-stack entry while the count is below 5 never
decreases the score. -/
theorem C8_tech_mono (d : AnalysisData) (ts : List Json) (x : Json) (s s2 : ℤ)
    (hts : d.tech_stack = some ts) (hlen : ts.length < 5)
    (hs : calculate_repo_score d = some s)
    (hs2 : calculate_repo_score { d with tech_stack := some (ts ++ [x]) } = some s2) :
    s ≤ s2 := by
  rcases hl : d.languages with _ | langs
  · rw [score_none_of_missing d (Or.inl hl)] at hs
    cases hs
  rcases ha : d.algorithms with _ | algs
  · rw [score_none_of_missing d (Or.inr (Or.inr (Or.inl ha)))] at hs
    cases hs
  rcases hc : d.complexity with _ | cx
  · rw [score_none_of_missing d (Or.inr (Or.inr (Or.inr (Or.inl hc))))] at hs
    cases hs
  rcases hm : d.commit_activity with _ | ca
  · rw [score_none_of_missing d (Or.inr (Or.inr (Or.inr (Or.inr hm))))] at hs
    cases hs
  rcases hjd : getJd d with _ | q
  · rw [score_none_of_jd_none d hjd] at hs
    cases hs
  rw [calculate_repo_score_eq d langs ts algs cx ca q hl hts ha hc hm hjd] at hs
  have hl2 : ({ d with tech_stack := some (ts ++ [x]) } : AnalysisData).languages
      = some langs := hl
  have hts2 : ({ d with tech_stack := some (ts ++ [x]) } : AnalysisData).tech_stack
      = some (ts ++ [x]) := rfl
  have ha2 : ({ d with tech_stack := some (ts ++ [x]) } : AnalysisData).algorithms
      = some algs := ha
  have hc2 : ({ d with tech_stack := some (ts ++ [x]) } : AnalysisData).complexity
      = some cx := hc
  have hm2 : ({ d with tech_stack := some (ts ++ [x]) } : AnalysisData).commit_activity
      = some ca := hm
  have hjd2 : getJd { d with tech_stack := some (ts ++ [x]) } = some q := hjd
  rw [calculate_repo_score_eq _ langs (ts ++ [x]) algs cx ca q hl2 hts2 ha2 hc2 hm2 hjd2] at hs2
  have hseq : s = pyRound ((base_score langs ts algs cx ca : ℚ) * 0.6 + q * 0.4) :=
    (Option.some.inj hs).symm
  have hs2eq : s2 = pyRound ((base_score langs (ts ++ [x]) algs cx ca : ℚ) * 0.6 + q * 0.4) :=
    (Option.some.inj hs2).symm
  rw [hseq, hs2eq]
  apply pyRound_mono
  rw [base_score_append_tech langs ts algs x cx ca hlen]
  have hcast : ((base_score langs ts algs cx ca + 3 : ℕ) : ℚ)
      = (base_score langs ts algs cx ca : ℚ) + 3 := by push_cast; ring
  rw [hcast]
  have hexp : ((base_score langs ts algs cx ca : ℚ) + 3) * 0.6
      = (base_score langs ts algs cx ca : ℚ) * 0.6 + 18 / 10 := by ring
  rw [hexp]
  linarith

/-- C8 witness: adding "Redis" to the scenario's tech stack raises the
score from 66 to 68. -/
theorem C8_witness :
    calculate_repo_score exScenario = some 66 ∧
    calculate_repo_score exScenarioPlus = some 68 ∧
    (66 : ℤ) ≤ 68 := by
  have hs : calculate_repo_score exScenario = some 66 := by
    rw [calculate_repo_score_eq exScenario [Json.str "Python", Json.str "JS"]
      [Json.str "Flask"] [] "medium" "active" 80 rfl rfl rfl rfl rfl rfl]
    norm_num [pyRound, (by decide : base_score [Json.str "Python", Json.str "JS"]
      [Json.str "Flask"] [] "medium" "active" = 57)]
  have hs2 : calculate_repo_score exScenarioPlus = some 68 := by
    rw [calculate_repo_score_eq exScenarioPlus [Json.str "Python", Json.str "JS"]
      ([Json.str "Flask"] ++ [Json.str "Redis"]) [] "medium" "active" 80
      rfl rfl rfl rfl rfl rfl]
    norm_num [pyRound, (by decide : base_score [Json.str "Python", Json.str "JS"]
      [Json.str "Flask", Json.str "Redis"] [] "medium" "active" = 60)]
  exact ⟨hs, hs2, C8_tech_mono exScenario [Json.str "Flask"] (Json.str "Redis") 66 68
    rfl (by norm_num) hs hs2⟩

/-- C9: the analyzer hands the parser exactly the stripped substring from
the first `\x7b` (inclusive) to the last `\x7d` (inclusive) of the raw
response, and on parse failure it returns exactly the default record:
empty lists, "unknown" tiers, jd score 0. -/
theorem C9_parse_contract (r : String) :
    (∀ i j : ℕ,
      r.data.get? i = some '{' →
      (∀ k < i, r.data.get? k ≠ some '{') →
      r.data.get? j = some '}' →
      (∀ k < r.data.length, j < k → r.data.get? k ≠ some '}') →
      analyze_repo_and_jd_match r =
        match json_loads (pyStrip (String.mk ((r.data.drop i).take (j + 1 - i)))) with
        | some js => toAnalysisData js
        | none => default_analysis) ∧
    (json_loads (extract_response r) = none →
      analyze_repo_and_jd_match r = default_analysis ∧
      default_analysis =
        { languages := some [], tech_stack := some [], algorithms := some [],
          complexity := some "unknown", commit_activity := some "unknown",
          jd_match_score := some (Json.num 0), jd_match_reasons := some [] }) := by
  constructor
  · intro i j hi hfirst hj hlast
    have hfind : pyFind r '{' = (i : ℤ) := findAux_spec _ _ _ hi hfirst
    have hrfind : pyRFind r '}' = (j : ℤ) := rfindAux_spec _ _ _ hj hlast
    have hiL : i < r.data.length := lt_length_of_get?_eq_some hi
    have hjL : j < r.data.length := lt_length_of_get?_eq_some hj
    unfold analyze_repo_and_jd_match extract_response
    rw [hfind, hrfind]
    rw [show ((j : ℤ) + 1) = ((j + 1 : ℕ) : ℤ) by push_cast; ring]
    rw [pySlice_nat r i (j + 1) (le_of_lt hiL) (by omega)]
  · intro h
    unfold analyze_repo_and_jd_match
    rw [h]
    exact ⟨rfl, rfl⟩

/-- C9 witness: on a response whose bracketed substring is not JSON, the
payload is sliced between the first `\x7b` and last `\x7d` and, parsing
failing, the default record is returned. -/
theorem C9_witness :
    analyze_repo_and_jd_match "ab\x7bnot json\x7dcd" =
      (match json_loads (pyStrip (String.mk ((("ab\x7bnot json\x7dcd").data.drop 2).take 10))) with
        | some js => toAnalysisData js
        | none => default_analysis) ∧
    analyze_repo_and_jd_match "ab\x7bnot json\x7dcd" = default_analysis := by
  constructor
  · exact (C9_parse_contract "ab\x7bnot json\x7dcd").1 2 11
      (by decide) (by decide) (by decide) (by decide)
  · exact ((C9_parse_contract "ab\x7bnot json\x7dcd").2 rfl).1

/-- C10: a `jd_match_score` given as a numeric string is coerced by
`float(...)` and blended exactly as the number itself would be — the two
records score identically. -/
theorem C10_string_jd (d d2 : AnalysisData) (s : String) (q : ℚ)
    (hparse : pyFloatOfString s = some q)
    (hd : d.jd_match_score = some (Json.str s))
    (hd2 : d2 = { d with jd_match_score := some (Json.num q) }) :
    calculate_repo_score d2 = calculate_repo_score d := by
  subst hd2
  have hjd : getJd d = some q := by
    unfold getJd
    rw [hd]
    exact hparse
  have hjd2 : getJd { d with jd_match_score := some (Json.num q) } = some q := rfl
  unfold calculate_repo_score
  dsimp only
  rw [hjd, hjd2]

/-- C10 witness: the scenario with jd "72.5" scores the same as with the
number 72.5. -/
theorem C10_witness : calculate_repo_score exNumJd = calculate_repo_score exStrJd := by
  apply C10_string_jd exStrJd exNumJd "72.5" (145 / 2)
  · have h : pyFloatOfString "72.5" =
        some ((1 : ℚ) * (((72 : ℕ) : ℚ) + ((5 : ℕ) : ℚ) / (10 : ℚ) ^ ((1 : ℕ)))
          * (10 : ℚ) ^ ((0 : ℤ))) := rfl
    rw [h]
    norm_num
  · rfl
  · rfl
